import Mathlib

/-!
Shallow embedding of the rusty-pong simulation core (src/ball.rs, src/paddle.rs,
src/rectangle.rs, src/main.rs).  Rust f32 values are modelled as rationals; the
random source used by the serve logic (rand::thread_rng) is modelled as explicit
oracle inputs: a coin flip (Bool, the result of rng.gen) and a rational
(the result of rng.gen_range(-BALL_STARTING_SPEED, BALL_STARTING_SPEED), whose
outcomes lie in the half-open interval from -500 inclusive to 500 exclusive).
Pressed keys are modelled as the two booleans the paddle code actually reads
(Up and Down membership in the key set).
-/

namespace Pong

/-- Constants from src/ball.rs. -/
def BALL_WIDTH : ℚ := 15
def BALL_HEIGHT : ℚ := 15
def BALL_BOUNCE_SPEEDUP : ℚ := 23 / 20
def BALL_STARTING_SPEED : ℚ := 500

/-- Constants from src/paddle.rs. -/
def KEYBOARD_SPEED : ℚ := 500
def PADDLE_WIDTH : ℚ := 20
def PADDLE_HEIGHT : ℚ := 100

/-- Constants from src/main.rs. -/
def SCORE_TO_WIN : ℕ := 10

/-- src/rectangle.rs: an axis-aligned rectangle, top-left anchored. -/
structure Rectangle where
  x : ℚ
  y : ℚ
  width : ℚ
  height : ℚ
deriving DecidableEq

/-- src/rectangle.rs Rectangle::intersects: inclusive axis-aligned overlap test. -/
def Rectangle.intersects (self : Rectangle) (other : Rectangle) : Bool :=
  decide (self.x ≤ other.x + other.width) && decide (self.x + self.width ≥ other.x) &&
  decide (self.y ≤ other.y + other.height) && decide (self.y + self.height ≥ other.y)

/-- src/rectangle.rs Rectangle::contains_point: inclusive bounds test. -/
def Rectangle.contains_point (self : Rectangle) (x y : ℚ) : Bool :=
  decide (x ≥ self.x) && decide (x ≤ self.x + self.width) &&
  decide (y ≥ self.y) && decide (y ≤ self.y + self.height)

/-- src/paddle.rs: a paddle has bounds and a score. -/
structure Paddle where
  bounds : Rectangle
  score : ℕ
deriving DecidableEq

/-- src/paddle.rs Paddle::new: paddle centered at the given position, score 0. -/
def Paddle.new (x y : ℚ) : Paddle :=
  { bounds := { x := x - PADDLE_WIDTH / 2, y := y - PADDLE_HEIGHT / 2,
                width := PADDLE_WIDTH, height := PADDLE_HEIGHT },
    score := 0 }

/-- src/main.rs UpdateParams: the per-frame update context. -/
structure UpdateParams where
  dt : ℚ
  game_width : ℚ
  game_height : ℚ
deriving DecidableEq

/-- src/paddle.rs Paddle::update: integrate key-driven vertical velocity, then
clamp y into the arena. -/
def Paddle.update (self : Paddle) (params : UpdateParams)
    (up_pressed down_pressed : Bool) : Paddle :=
  let vy : ℚ := (if up_pressed then -KEYBOARD_SPEED else 0)
              + (if down_pressed then KEYBOARD_SPEED else 0)
  let y := self.bounds.y + vy * params.dt
  let y := if y < 0 then 0
           else if y + self.bounds.height > params.game_height then
             params.game_height - self.bounds.height
           else y
  { self with bounds := { self.bounds with y := y } }

/-- src/ball.rs: the ball has bounds, a velocity and a pre-serve freeze timer. -/
structure Ball where
  bounds : Rectangle
  vx : ℚ
  vy : ℚ
  start_timer : ℚ
deriving DecidableEq

/-- src/ball.rs Ball::reset: recenter the ball at (x, y), draw a fresh serve
velocity from the random oracle, and freeze for 1 second. -/
def Ball.reset (self : Ball) (x y : ℚ) (coin : Bool) (vyRand : ℚ) : Ball :=
  { self with
    bounds := { self.bounds with
      x := x - self.bounds.width / 2,
      y := y - self.bounds.height / 2 },
    vx := if coin then BALL_STARTING_SPEED else -BALL_STARTING_SPEED,
    vy := vyRand,
    start_timer := 1 }

/-- src/ball.rs Ball::new: zero-initialized ball, immediately reset to (x, y). -/
def Ball.new (x y : ℚ) (coin : Bool) (vyRand : ℚ) : Ball :=
  Ball.reset
    { vx := 0, vy := 0, start_timer := 0,
      bounds := { x := 0, y := 0, width := BALL_WIDTH, height := BALL_HEIGHT } }
    x y coin vyRand

/-- src/ball.rs Ball::check_paddle_collision: on bounding-box overlap, snap the
ball flush to the paddle face chosen by the velocity sign, reflect and speed up
the horizontal velocity, and recompute the vertical velocity from the offset. -/
def Ball.check_paddle_collision (self : Ball) (paddle : Paddle) : Ball :=
  if paddle.bounds.intersects self.bounds then
    { self with
      bounds := { self.bounds with
        x := if self.vx < 0 then paddle.bounds.x + paddle.bounds.width
             else paddle.bounds.x - self.bounds.width },
      vx := -BALL_BOUNCE_SPEEDUP * self.vx,
      vy := (self.bounds.y - paddle.bounds.y) * 10 }
  else self

/-- src/ball.rs Ball::check_wall_collision: flip the vertical velocity when the
ball touches the top or bottom of the arena; no repositioning. -/
def Ball.check_wall_collision (self : Ball) (params : UpdateParams) : Ball :=
  if self.bounds.y ≤ 0 ∨ self.bounds.y + self.bounds.height ≥ params.game_height then
    { self with vy := -self.vy }
  else self

/-- src/ball.rs Ball::check_goal: left edge at or past 0 scores for the right
paddle, otherwise right edge at or past the arena width scores for the left
paddle; either way the ball is reset at the arena center. -/
def Ball.check_goal (self : Ball) (params : UpdateParams)
    (left_paddle right_paddle : Paddle) (coin : Bool) (vyRand : ℚ) :
    Ball × Paddle × Paddle :=
  if self.bounds.x ≤ 0 then
    (self.reset (params.game_width / 2) (params.game_height / 2) coin vyRand,
     left_paddle, { right_paddle with score := right_paddle.score + 1 })
  else if self.bounds.x + self.bounds.width ≥ params.game_width then
    (self.reset (params.game_width / 2) (params.game_height / 2) coin vyRand,
     { left_paddle with score := left_paddle.score + 1 }, right_paddle)
  else
    (self, left_paddle, right_paddle)

/-- src/ball.rs Ball::update: decrement the freeze timer or integrate motion,
then run the collision checks in fixed order (left paddle, right paddle, wall,
goal).  Returns the new ball together with the (possibly score-incremented)
paddles. -/
def Ball.update (self : Ball) (params : UpdateParams)
    (left_paddle right_paddle : Paddle) (coin : Bool) (vyRand : ℚ) :
    Ball × Paddle × Paddle :=
  let moved :=
    if self.start_timer > 0 then
      { self with start_timer := self.start_timer - params.dt }
    else
      { self with bounds := { self.bounds with
          x := self.bounds.x + self.vx * params.dt,
          y := self.bounds.y + self.vy * params.dt } }
  let afterLeft := moved.check_paddle_collision left_paddle
  let afterRight := afterLeft.check_paddle_collision right_paddle
  let afterWall := afterRight.check_wall_collision params
  afterWall.check_goal params left_paddle right_paddle coin vyRand

/-- src/main.rs Game: the simulation-relevant game state. -/
structure Game where
  left_paddle : Paddle
  right_paddle : Paddle
  ball : Ball
deriving DecidableEq

/-- src/main.rs Game::has_winner: the first player to reach 10 points wins. -/
def Game.has_winner (self : Game) : Bool :=
  decide (self.left_paddle.score ≥ SCORE_TO_WIN) ||
  decide (self.right_paddle.score ≥ SCORE_TO_WIN)

/-- src/main.rs Game::update: while there is no winner, update both paddles and
then the ball; once somebody has won, skip the simulation update entirely. -/
def Game.update (self : Game) (params : UpdateParams)
    (up_pressed down_pressed : Bool) (coin : Bool) (vyRand : ℚ) : Game :=
  if ¬ self.has_winner then
    let lp := self.left_paddle.update params up_pressed down_pressed
    let rp := self.right_paddle.update params up_pressed down_pressed
    let r := self.ball.update params lp rp coin vyRand
    { left_paddle := r.2.1, right_paddle := r.2.2, ball := r.1 }
  else
    self

/-- Ball states reachable from Ball::new by any sequence of Ball::update calls,
with arbitrary update parameters, paddle states and random-oracle outcomes. -/
inductive ReachableBall : Ball → Prop where
  | new : ∀ (x y : ℚ) (coin : Bool) (vyRand : ℚ), ReachableBall (Ball.new x y coin vyRand)
  | update : ∀ (b : Ball) (params : UpdateParams) (l r : Paddle) (coin : Bool) (vyRand : ℚ),
      ReachableBall b → ReachableBall (b.update params l r coin vyRand).1

/-- Helper: a paddle the ball does not overlap leaves the ball unchanged. -/
theorem check_paddle_collision_of_not_intersects (b : Ball) (p : Paddle)
    (h : p.bounds.intersects b.bounds = false) : b.check_paddle_collision p = b := by
  simp [Ball.check_paddle_collision, h]

/-- Helper: the wall check never changes bounds, vx or the freeze timer. -/
theorem check_wall_collision_effect (b : Ball) (params : UpdateParams) :
    (b.check_wall_collision params).bounds = b.bounds ∧
    (b.check_wall_collision params).vx = b.vx ∧
    (b.check_wall_collision params).start_timer = b.start_timer := by
  unfold Ball.check_wall_collision
  split <;> exact ⟨rfl, rfl, rfl⟩

/-- Helper: with the ball strictly inside both goal lines, check_goal is a
no-op. -/
theorem check_goal_of_no_goal (b : Ball) (params : UpdateParams)
    (l r : Paddle) (coin : Bool) (vyRand : ℚ)
    (hx : 0 < b.bounds.x) (hw : b.bounds.x + b.bounds.width < params.game_width) :
    b.check_goal params l r coin vyRand = (b, l, r) := by
  unfold Ball.check_goal
  rw [if_neg (not_le.mpr hx), if_neg (not_le.mpr hw)]

/-- Helper: check_goal never decreases either paddle's score. -/
theorem check_goal_score_mono (b : Ball) (params : UpdateParams)
    (l r : Paddle) (coin : Bool) (vyRand : ℚ) :
    l.score ≤ (b.check_goal params l r coin vyRand).2.1.score ∧
    r.score ≤ (b.check_goal params l r coin vyRand).2.2.score := by
  unfold Ball.check_goal
  split_ifs <;> simp

/-- C9: for all rectangles A and B, A.intersects(B) equals B.intersects(A); the
axis-aligned intersection test of Rectangle::intersects is symmetric. -/
theorem intersects_symm (A B : Rectangle) : A.intersects B = B.intersects A := by
  simp only [Rectangle.intersects, ge_iff_le]
  rw [Bool.eq_iff_iff]
  simp only [Bool.and_eq_true, decide_eq_true_eq]
  tauto

/-- C1 counterexample: a frozen ball (start_timer = 1 > 0) that overlaps the
left paddle is moved by Ball::update — its x coordinate changes — because the
collision and goal checks run even while the ball is frozen. -/
theorem frozen_update_moves_ball_cex :
    (0:ℚ) < 1 ∧
    (Ball.update ⟨⟨20, 320, 15, 15⟩, 500, 0, 1⟩ ⟨1/60, 1280, 720⟩ (Paddle.new 25 360)
      (Paddle.new 1255 360) true 0).1.bounds.x ≠ 20 := by
  norm_num [Ball.update, Ball.check_paddle_collision, Ball.check_wall_collision,
    Ball.check_goal, Ball.reset, Paddle.new, Rectangle.intersects,
    BALL_BOUNCE_SPEEDUP, BALL_STARTING_SPEED, PADDLE_WIDTH, PADDLE_HEIGHT]

/-- C1 (amended): if the ball is frozen (start_timer > 0) and additionally
overlaps neither paddle and is strictly inside both goal lines, then
Ball::update leaves its position unchanged and only decrements start_timer
by dt. -/
theorem frozen_update_keeps_position (b : Ball) (params : UpdateParams)
    (l r : Paddle) (coin : Bool) (vyRand : ℚ)
    (hfrozen : 0 < b.start_timer)
    (hl : l.bounds.intersects b.bounds = false)
    (hr : r.bounds.intersects b.bounds = false)
    (hx : 0 < b.bounds.x)
    (hw : b.bounds.x + b.bounds.width < params.game_width) :
    (b.update params l r coin vyRand).1.bounds = b.bounds ∧
    (b.update params l r coin vyRand).1.start_timer = b.start_timer - params.dt := by
  have hmoved : (if b.start_timer > 0 then { b with start_timer := b.start_timer - params.dt }
      else { b with bounds := { b.bounds with
        x := b.bounds.x + b.vx * params.dt,
        y := b.bounds.y + b.vy * params.dt } }) =
      { b with start_timer := b.start_timer - params.dt } := if_pos hfrozen
  have hpl : ({ b with start_timer := b.start_timer - params.dt } : Ball).check_paddle_collision
      l = { b with start_timer := b.start_timer - params.dt } :=
    check_paddle_collision_of_not_intersects _ _ hl
  have hpr : ({ b with start_timer := b.start_timer - params.dt } : Ball).check_paddle_collision
      r = { b with start_timer := b.start_timer - params.dt } :=
    check_paddle_collision_of_not_intersects _ _ hr
  obtain ⟨hb, -, ht⟩ := check_wall_collision_effect
    { b with start_timer := b.start_timer - params.dt } params
  simp only [Ball.update, hmoved, hpl, hpr]
  rw [check_goal_of_no_goal _ _ _ _ _ _ (by rw [hb]; exact hx) (by rw [hb]; exact hw)]
  exact ⟨hb, ht⟩

/-- C1 witness: a concrete frozen ball away from paddles and goal lines keeps
its position and has its timer decremented by dt. -/
theorem frozen_update_keeps_position_witness :
    (0:ℚ) < 1 ∧
    (Ball.update ⟨⟨600, 300, 15, 15⟩, 500, 100, 1⟩ ⟨1/60, 1280, 720⟩ (Paddle.new 25 360)
      (Paddle.new 1255 360) true 0).1.bounds = ⟨600, 300, 15, 15⟩ ∧
    (Ball.update ⟨⟨600, 300, 15, 15⟩, 500, 100, 1⟩ ⟨1/60, 1280, 720⟩ (Paddle.new 25 360)
      (Paddle.new 1255 360) true 0).1.start_timer = 1 - 1/60 :=
  ⟨by norm_num,
   frozen_update_keeps_position ⟨⟨600, 300, 15, 15⟩, 500, 100, 1⟩ ⟨1/60, 1280, 720⟩
     (Paddle.new 25 360) (Paddle.new 1255 360) true 0
     (by norm_num)
     (by norm_num [Rectangle.intersects, Paddle.new, PADDLE_WIDTH, PADDLE_HEIGHT])
     (by norm_num [Rectangle.intersects, Paddle.new, PADDLE_WIDTH, PADDLE_HEIGHT])
     (by norm_num) (by norm_num)⟩

/-- C2 counterexample: with the ball wider than the arena (arena width 10, ball
width 15 at x = -1) the ball's right edge is past the arena width, yet the left
paddle's score stays 0, because the left-edge branch of check_goal takes
precedence. -/
theorem check_goal_right_edge_cex :
    ((-1:ℚ) + 15 ≥ 10) ∧
    (Ball.check_goal ⟨⟨-1, 100, 15, 15⟩, -500, 0, 0⟩ ⟨1/60, 10, 720⟩ ⟨⟨0,0,20,100⟩,0⟩
      ⟨⟨0,0,20,100⟩,0⟩ true 0).2.1.score = 0 := by
  norm_num [Ball.check_goal, Ball.reset, BALL_STARTING_SPEED]

/-- C2 (amended): when the ball's left edge is at or past 0, check_goal
increments the right paddle's score by exactly 1, leaves the left paddle
unchanged, recenters the ball at the arena center and sets start_timer to the
fixed positive freeze duration 1; symmetrically when the right edge is at or
past the arena width and the left edge is strictly past 0, the left paddle's
score is incremented by exactly 1. -/
theorem check_goal_scores_and_resets (b : Ball) (params : UpdateParams)
    (l r : Paddle) (coin : Bool) (vyRand : ℚ) :
    (b.bounds.x ≤ 0 →
      ((b.check_goal params l r coin vyRand).2.2.score = r.score + 1 ∧
       (b.check_goal params l r coin vyRand).2.2.bounds = r.bounds ∧
       (b.check_goal params l r coin vyRand).2.1 = l ∧
       (b.check_goal params l r coin vyRand).1.bounds.x =
         params.game_width / 2 - b.bounds.width / 2 ∧
       (b.check_goal params l r coin vyRand).1.bounds.y =
         params.game_height / 2 - b.bounds.height / 2 ∧
       (b.check_goal params l r coin vyRand).1.start_timer = 1 ∧
       (0:ℚ) < (b.check_goal params l r coin vyRand).1.start_timer)) ∧
    (¬ b.bounds.x ≤ 0 → params.game_width ≤ b.bounds.x + b.bounds.width →
      ((b.check_goal params l r coin vyRand).2.1.score = l.score + 1 ∧
       (b.check_goal params l r coin vyRand).2.1.bounds = l.bounds ∧
       (b.check_goal params l r coin vyRand).2.2 = r ∧
       (b.check_goal params l r coin vyRand).1.bounds.x =
         params.game_width / 2 - b.bounds.width / 2 ∧
       (b.check_goal params l r coin vyRand).1.bounds.y =
         params.game_height / 2 - b.bounds.height / 2 ∧
       (b.check_goal params l r coin vyRand).1.start_timer = 1 ∧
       (0:ℚ) < (b.check_goal params l r coin vyRand).1.start_timer)) := by
  constructor
  · intro h
    simp [Ball.check_goal, Ball.reset, h]
  · intro h1 h2
    simp [Ball.check_goal, Ball.reset, h1, h2]

/-- C2 witness: a ball with left edge at 0 scores for the right paddle and is
recentered frozen; a ball with right edge past 1280 scores for the left
paddle. -/
theorem check_goal_scores_and_resets_witness :
    ((0:ℚ) ≤ 0 ∧
     (Ball.check_goal ⟨⟨0, 100, 15, 15⟩, -500, 0, 0⟩ ⟨1/60, 1280, 720⟩ (Paddle.new 25 360)
       (Paddle.new 1255 360) true 0).2.2.score = (Paddle.new 1255 360).score + 1 ∧
     (Ball.check_goal ⟨⟨0, 100, 15, 15⟩, -500, 0, 0⟩ ⟨1/60, 1280, 720⟩ (Paddle.new 25 360)
       (Paddle.new 1255 360) true 0).1.start_timer = 1) ∧
    (¬ (1270:ℚ) ≤ 0 ∧ (1280:ℚ) ≤ 1270 + 15 ∧
     (Ball.check_goal ⟨⟨1270, 100, 15, 15⟩, 500, 0, 0⟩ ⟨1/60, 1280, 720⟩ (Paddle.new 25 360)
       (Paddle.new 1255 360) true 0).2.1.score = (Paddle.new 25 360).score + 1) :=
  ⟨⟨by norm_num,
    ((check_goal_scores_and_resets ⟨⟨0, 100, 15, 15⟩, -500, 0, 0⟩ ⟨1/60, 1280, 720⟩
      (Paddle.new 25 360) (Paddle.new 1255 360) true 0).1 (by norm_num)).1,
    (((check_goal_scores_and_resets ⟨⟨0, 100, 15, 15⟩, -500, 0, 0⟩ ⟨1/60, 1280, 720⟩
      (Paddle.new 25 360) (Paddle.new 1255 360) true 0).1 (by norm_num)).2.2.2.2.2).1⟩,
   ⟨by norm_num, by norm_num,
    (((check_goal_scores_and_resets ⟨⟨1270, 100, 15, 15⟩, 500, 0, 0⟩ ⟨1/60, 1280, 720⟩
      (Paddle.new 25 360) (Paddle.new 1255 360) true 0).2 (by norm_num)) (by norm_num)).1⟩⟩

/-- C3 counterexample: a ball with vx = 0 overlapping the left paddle still has
vx = 0 after the paddle collision, so its horizontal speed does not strictly
increase and its sign does not flip. -/
theorem paddle_collision_zero_vx_cex :
    ((Paddle.new 25 360).bounds.intersects ⟨20, 320, 15, 15⟩ = true) ∧
    ¬ (|(⟨⟨20, 320, 15, 15⟩, (0:ℚ), 0, 0⟩ : Ball).vx| <
       |(Ball.check_paddle_collision ⟨⟨20, 320, 15, 15⟩, 0, 0, 0⟩ (Paddle.new 25 360)).vx|) := by
  norm_num [Ball.check_paddle_collision, Paddle.new, Rectangle.intersects,
    BALL_BOUNCE_SPEEDUP, PADDLE_WIDTH, PADDLE_HEIGHT]

/-- C3 (amended): whenever ball and paddle boxes intersect, the paddle
collision sets vx to -1.15 times the old vx and vy to
(ball.y - paddle.y) * 10; and provided the old vx is nonzero, the sign of vx
flips and its magnitude strictly increases. -/
theorem paddle_collision_velocity (b : Ball) (p : Paddle)
    (h : p.bounds.intersects b.bounds = true) :
    (b.check_paddle_collision p).vx = -BALL_BOUNCE_SPEEDUP * b.vx ∧
    (b.check_paddle_collision p).vy = (b.bounds.y - p.bounds.y) * 10 ∧
    (b.vx ≠ 0 →
      |b.vx| < |(b.check_paddle_collision p).vx| ∧
      (0 < b.vx → (b.check_paddle_collision p).vx < 0) ∧
      (b.vx < 0 → 0 < (b.check_paddle_collision p).vx)) := by
  have hs : BALL_BOUNCE_SPEEDUP = 23 / 20 := rfl
  unfold Ball.check_paddle_collision
  rw [if_pos h]
  refine ⟨rfl, rfl, fun hvx => ⟨?_, fun hpos => ?_, fun hneg => ?_⟩⟩
  · show |b.vx| < |-BALL_BOUNCE_SPEEDUP * b.vx|
    rw [abs_mul, abs_neg, abs_of_nonneg (by rw [hs]; norm_num : (0:ℚ) ≤ BALL_BOUNCE_SPEEDUP)]
    have habs : 0 < |b.vx| := abs_pos.mpr hvx
    rw [hs]
    nlinarith
  · show -BALL_BOUNCE_SPEEDUP * b.vx < 0
    rw [hs]; nlinarith
  · show 0 < -BALL_BOUNCE_SPEEDUP * b.vx
    rw [hs]; nlinarith

/-- C3 witness: a ball with vx = -500 overlapping the left paddle bounces to
vx = -1.15 * (-500) with strictly larger magnitude. -/
theorem paddle_collision_velocity_witness :
    ((Paddle.new 25 360).bounds.intersects ⟨20, 320, 15, 15⟩ = true) ∧
    ((-500:ℚ) ≠ 0) ∧
    (Ball.check_paddle_collision ⟨⟨20, 320, 15, 15⟩, -500, 0, 0⟩ (Paddle.new 25 360)).vx =
      -BALL_BOUNCE_SPEEDUP * (-500) ∧
    |(⟨⟨20, 320, 15, 15⟩, (-500:ℚ), 0, 0⟩ : Ball).vx| <
      |(Ball.check_paddle_collision ⟨⟨20, 320, 15, 15⟩, -500, 0, 0⟩ (Paddle.new 25 360)).vx| :=
  ⟨by norm_num [Rectangle.intersects, Paddle.new, PADDLE_WIDTH, PADDLE_HEIGHT],
   by norm_num,
   (paddle_collision_velocity ⟨⟨20, 320, 15, 15⟩, -500, 0, 0⟩ (Paddle.new 25 360)
     (by norm_num [Rectangle.intersects, Paddle.new, PADDLE_WIDTH, PADDLE_HEIGHT])).1,
   ((paddle_collision_velocity ⟨⟨20, 320, 15, 15⟩, -500, 0, 0⟩ (Paddle.new 25 360)
     (by norm_num [Rectangle.intersects, Paddle.new, PADDLE_WIDTH, PADDLE_HEIGHT])).2.2
     (by norm_num)).1⟩

/-- C4: for any key combination and dt ≥ 0 (and a paddle that fits the arena,
as in the game where the paddle height 100 is at most the arena height 720),
Paddle::update leaves the paddle's y within [0, game_height - height]. -/
theorem paddle_update_in_bounds (p : Paddle) (params : UpdateParams)
    (up_pressed down_pressed : Bool)
    (hdt : 0 ≤ params.dt) (hh : p.bounds.height ≤ params.game_height) :
    0 ≤ (p.update params up_pressed down_pressed).bounds.y ∧
    (p.update params up_pressed down_pressed).bounds.y ≤
      params.game_height - p.bounds.height := by
  simp only [Paddle.update]
  split_ifs <;> constructor <;> linarith

/-- C4 witness: a concrete paddle pushed up for one tick stays within the
arena. -/
theorem paddle_update_in_bounds_witness :
    (0:ℚ) ≤ 1/60 ∧ (Paddle.new 25 360).bounds.height ≤ (720:ℚ) ∧
    0 ≤ ((Paddle.new 25 360).update ⟨1/60, 1280, 720⟩ true false).bounds.y ∧
    ((Paddle.new 25 360).update ⟨1/60, 1280, 720⟩ true false).bounds.y ≤
      720 - (Paddle.new 25 360).bounds.height :=
  ⟨by norm_num,
   by norm_num [Paddle.new, PADDLE_HEIGHT],
   (paddle_update_in_bounds (Paddle.new 25 360) ⟨1/60, 1280, 720⟩ true false
     (by norm_num) (by norm_num [Paddle.new, PADDLE_HEIGHT])).1,
   (paddle_update_in_bounds (Paddle.new 25 360) ⟨1/60, 1280, 720⟩ true false
     (by norm_num) (by norm_num [Paddle.new, PADDLE_HEIGHT])).2⟩

/-- C5: the wall check flips vy exactly when the ball's top edge is at or past
0 or its bottom edge is at or past the arena height, and it never changes the
ball's position (nor vx or the freeze timer); in particular a ball with top
edge at y = 0 and vy = -300 comes out with vy = +300 and untouched position. -/
theorem wall_collision_spec (b : Ball) (params : UpdateParams) :
    (b.check_wall_collision params).bounds = b.bounds ∧
    (b.check_wall_collision params).vx = b.vx ∧
    (b.check_wall_collision params).start_timer = b.start_timer ∧
    (b.check_wall_collision params).vy =
      (if b.bounds.y ≤ 0 ∨ b.bounds.y + b.bounds.height ≥ params.game_height
       then -b.vy else b.vy) ∧
    (Ball.check_wall_collision ⟨⟨100, 0, 15, 15⟩, 200, -300, 0⟩ ⟨1/60, 1280, 720⟩).vy = 300 ∧
    (Ball.check_wall_collision ⟨⟨100, 0, 15, 15⟩, 200, -300, 0⟩ ⟨1/60, 1280, 720⟩).bounds =
      ⟨100, 0, 15, 15⟩ := by
  refine ⟨?_, ?_, ?_, ?_, ?_, ?_⟩
  · exact (check_wall_collision_effect b params).1
  · exact (check_wall_collision_effect b params).2.1
  · exact (check_wall_collision_effect b params).2.2
  · unfold Ball.check_wall_collision
    split <;> rfl
  · norm_num [Ball.check_wall_collision]
  · norm_num [Ball.check_wall_collision]

/-- C6: once either paddle has reached the winning score of 10, Game::update
is the identity on the whole simulation state, for any inputs and update
parameters. -/
theorem game_update_frozen_after_win (g : Game) (params : UpdateParams)
    (up_pressed down_pressed coin : Bool) (vyRand : ℚ)
    (h : SCORE_TO_WIN ≤ g.left_paddle.score ∨ SCORE_TO_WIN ≤ g.right_paddle.score) :
    g.update params up_pressed down_pressed coin vyRand = g := by
  have hwin : g.has_winner = true := by
    simp only [Game.has_winner, Bool.or_eq_true, decide_eq_true_eq, ge_iff_le]
    exact h
  simp [Game.update, hwin]

/-- C6 witness: with the left paddle at 10 points, a concrete game state is
unchanged by a tick. -/
theorem game_update_frozen_after_win_witness :
    SCORE_TO_WIN ≤ 10 ∧
    Game.update ⟨⟨⟨15, 310, 20, 100⟩, 10⟩, ⟨⟨1245, 310, 20, 100⟩, 0⟩,
      ⟨⟨600, 300, 15, 15⟩, 500, 0, 0⟩⟩ ⟨1/60, 1280, 720⟩ true false true 0 =
      ⟨⟨⟨15, 310, 20, 100⟩, 10⟩, ⟨⟨1245, 310, 20, 100⟩, 0⟩,
       ⟨⟨600, 300, 15, 15⟩, 500, 0, 0⟩⟩ :=
  ⟨le_refl _,
   game_update_frozen_after_win ⟨⟨⟨15, 310, 20, 100⟩, 10⟩, ⟨⟨1245, 310, 20, 100⟩, 0⟩,
     ⟨⟨600, 300, 15, 15⟩, 500, 0, 0⟩⟩ ⟨1/60, 1280, 720⟩ true false true 0
     (Or.inl (le_refl _))⟩

/-- C7: a paddle's score starts at 0 (Paddle::new), is untouched by
Paddle::update, and never decreases across Ball::update (where check_goal can
only add 1). -/
theorem score_never_decreases (x y : ℚ) (p : Paddle) (params : UpdateParams)
    (up_pressed down_pressed : Bool) (b : Ball) (l r : Paddle)
    (coin : Bool) (vyRand : ℚ) :
    (Paddle.new x y).score = 0 ∧
    (p.update params up_pressed down_pressed).score = p.score ∧
    l.score ≤ (b.update params l r coin vyRand).2.1.score ∧
    r.score ≤ (b.update params l r coin vyRand).2.2.score := by
  refine ⟨rfl, rfl, ?_, ?_⟩ <;>
  · simp only [Ball.update]
    first
    | exact (check_goal_score_mono _ _ _ _ _ _).1
    | exact (check_goal_score_mono _ _ _ _ _ _).2

/-- C8: for every outcome of the random oracle (the coin for rng.gen and a
value in the half-open range of rng.gen_range(-500, 500)), Ball::reset sets
vx to exactly +500 or -500, vy within [-500, 500], and start_timer to the
positive freeze duration 1. -/
theorem reset_serve_velocity (b : Ball) (x y : ℚ) (coin : Bool) (vyRand : ℚ)
    (h1 : -BALL_STARTING_SPEED ≤ vyRand) (h2 : vyRand < BALL_STARTING_SPEED) :
    ((b.reset x y coin vyRand).vx = BALL_STARTING_SPEED ∨
     (b.reset x y coin vyRand).vx = -BALL_STARTING_SPEED) ∧
    -BALL_STARTING_SPEED ≤ (b.reset x y coin vyRand).vy ∧
    (b.reset x y coin vyRand).vy ≤ BALL_STARTING_SPEED ∧
    (b.reset x y coin vyRand).start_timer = 1 ∧
    (0:ℚ) < (b.reset x y coin vyRand).start_timer := by
  refine ⟨?_, h1, le_of_lt h2, rfl, one_pos⟩
  unfold Ball.reset
  cases coin
  · exact Or.inr rfl
  · exact Or.inl rfl

/-- C8 witness: a concrete reset with coin = true and vertical draw 250 serves
at vx = 500, vy = 250, frozen for 1 second. -/
theorem reset_serve_velocity_witness :
    -BALL_STARTING_SPEED ≤ (250:ℚ) ∧ (250:ℚ) < BALL_STARTING_SPEED ∧
    ((Ball.reset ⟨⟨0, 0, 15, 15⟩, 0, 0, 0⟩ 640 360 true 250).vx = BALL_STARTING_SPEED ∨
     (Ball.reset ⟨⟨0, 0, 15, 15⟩, 0, 0, 0⟩ 640 360 true 250).vx = -BALL_STARTING_SPEED) ∧
    (Ball.reset ⟨⟨0, 0, 15, 15⟩, 0, 0, 0⟩ 640 360 true 250).start_timer = 1 :=
  ⟨by norm_num [BALL_STARTING_SPEED],
   by norm_num [BALL_STARTING_SPEED],
   (reset_serve_velocity ⟨⟨0, 0, 15, 15⟩, 0, 0, 0⟩ 640 360 true 250
     (by norm_num [BALL_STARTING_SPEED]) (by norm_num [BALL_STARTING_SPEED])).1,
   (reset_serve_velocity ⟨⟨0, 0, 15, 15⟩, 0, 0, 0⟩ 640 360 true 250
     (by norm_num [BALL_STARTING_SPEED]) (by norm_num [BALL_STARTING_SPEED])).2.2.2.1⟩

/-- Helper: any reset serve has horizontal speed exactly the serve speed. -/
theorem abs_vx_reset (b : Ball) (x y : ℚ) (coin : Bool) (vyRand : ℚ) :
    |(b.reset x y coin vyRand).vx| = BALL_STARTING_SPEED := by
  unfold Ball.reset
  cases coin <;> norm_num [BALL_STARTING_SPEED]

/-- Helper: the paddle bounce never shrinks the horizontal speed below the
serve speed. -/
theorem abs_vx_check_paddle (b : Ball) (p : Paddle)
    (h : BALL_STARTING_SPEED ≤ |b.vx|) :
    BALL_STARTING_SPEED ≤ |(b.check_paddle_collision p).vx| := by
  unfold Ball.check_paddle_collision
  split
  · show BALL_STARTING_SPEED ≤ |-BALL_BOUNCE_SPEEDUP * b.vx|
    have h1 : |-BALL_BOUNCE_SPEEDUP| = 23/20 := by norm_num [BALL_BOUNCE_SPEEDUP]
    have h3 : BALL_STARTING_SPEED = 500 := rfl
    rw [abs_mul, h1]
    rw [h3] at h ⊢
    linarith
  · exact h

/-- Helper: the goal check either keeps vx or resets it to a full-speed
serve. -/
theorem abs_vx_check_goal (b : Ball) (params : UpdateParams) (l r : Paddle)
    (coin : Bool) (vyRand : ℚ) (h : BALL_STARTING_SPEED ≤ |b.vx|) :
    BALL_STARTING_SPEED ≤ |(b.check_goal params l r coin vyRand).1.vx| := by
  unfold Ball.check_goal
  split_ifs
  · exact (abs_vx_reset b (params.game_width / 2) (params.game_height / 2) coin vyRand).ge
  · exact (abs_vx_reset b (params.game_width / 2) (params.game_height / 2) coin vyRand).ge
  · exact h

/-- C10: every ball state reachable from Ball::new through any sequence of
Ball::update calls has horizontal speed at least the serve speed 500; in
particular vx is never zero. -/
theorem reachable_ball_vx_lower_bound (b : Ball) (h : ReachableBall b) :
    BALL_STARTING_SPEED ≤ |b.vx| ∧ b.vx ≠ 0 := by
  have habs : BALL_STARTING_SPEED ≤ |b.vx| := by
    induction h with
    | new x y coin vyRand =>
      exact (abs_vx_reset _ x y coin vyRand).ge
    | update b params l r coin vyRand hb ih =>
      simp only [Ball.update]
      apply abs_vx_check_goal
      rw [(check_wall_collision_effect _ params).2.1]
      apply abs_vx_check_paddle
      apply abs_vx_check_paddle
      split <;> exact ih
  refine ⟨habs, fun h0 => ?_⟩
  rw [h0, abs_zero] at habs
  norm_num [BALL_STARTING_SPEED] at habs

/-- C10 witness: the ball freshly served by Ball::new already has horizontal
speed 500 and nonzero vx. -/
theorem reachable_ball_vx_lower_bound_witness :
    BALL_STARTING_SPEED ≤ |(Ball.new 640 360 true 0).vx| ∧ (Ball.new 640 360 true 0).vx ≠ 0 :=
  reachable_ball_vx_lower_bound (Ball.new 640 360 true 0) (ReachableBall.new 640 360 true 0)

end Pong
